import Mathlib

/-!
Shallow embedding of the Knowledge Worker RAG application
(src/knowledge_worker.py) and verification of its specification.

The class KnowledgeWorker orchestrates a retrieval-augmented generation
pipeline: load markdown documents from a knowledge-base directory, split
them into chunks, embed the chunks into a Chroma vector store, and answer
questions through a ConversationalRetrievalChain.  Pure control flow of the
methods load_documents, create_vectorstore, setup_conversation_chain,
ask_question and run_full_setup is translated directly from the source.
The third-party collaborators (glob + DirectoryLoader, CharacterTextSplitter,
OpenAI embeddings, Chroma, ConversationalRetrievalChain) are not part of the
repository; they are modelled from the specification, each such definition
carrying a doc comment that says so.
-/

/-- Error taxonomy of the pipeline.  The source raises ValueError for a
missing knowledge base (the configuration error of the spec) and lets
provider exceptions (network, auth, quota) propagate as generic exceptions;
we keep the message string of each. -/
inductive PipelineError where
  | configurationError : String → PipelineError
  | providerError : String → PipelineError
deriving DecidableEq, Repr

/-- The message carried by an error, as str(e) would render it in Python. -/
def PipelineError.message : PipelineError → String
  | .configurationError m => m
  | .providerError m => m

/-- A loaded document: page_content is the file text, doc_type is the
metadata key set by load_documents (the category of the spec), source is
the file name it was loaded from. -/
structure Document where
  page_content : String
  doc_type : String
  source : String
deriving DecidableEq, Repr

/-- Modelled from the spec: the filesystem as seen by glob and
DirectoryLoader.  An immediate entry of the knowledge-base root is either a
plain file (name, content) or a subdirectory; for a subdirectory we record
the flattened list of (relative path, content) pairs of all files found
recursively beneath it, which is exactly what the recursive glob pattern
of DirectoryLoader enumerates. -/
inductive FSEntry where
  | file : String → String → FSEntry
  | dir : String → List (String × String) → FSEntry
deriving DecidableEq, Repr

/-- Does a file name end in ".md", the pattern DirectoryLoader is given. -/
def hasMdExt (n : String) : Bool := n.data.reverse.take 3 == ['d', 'm', '.']

/-- Modelled from the spec: the documents DirectoryLoader produces for one
immediate entry of the root.  A plain file is not a directory, so the
recursive glob beneath it finds nothing; for a subdirectory every file
beneath it whose name matches the pattern becomes a Document tagged with
the directory name (load_documents then stores that tag in doc_type). -/
def entryDocs : FSEntry → List Document
  | .file _ _ => []
  | .dir name files =>
      (files.filter (fun p => hasMdExt p.1)).map
        (fun p => { page_content := p.2, doc_type := name, source := p.1 })

/-- All documents produced from the list of immediate entries of the root,
in order. -/
def docsOfEntries : List FSEntry → List Document
  | [] => []
  | e :: rest => entryDocs e ++ docsOfEntries rest

/-- Modelled from the spec: an embedding-vector record of the Chroma store:
id, embedding vector, chunk text and the doc_type metadata of the chunk. -/
structure Record where
  id : Nat
  vector : List Int
  text : String
  doc_type : String
deriving DecidableEq, Repr

/-- Modelled from the spec: the Chroma vector store as the list of records
it holds. -/
structure VectorStore where
  records : List Record
deriving DecidableEq, Repr

/-- Modelled from the spec: export_all returns every stored record. -/
def VectorStore.export_all (vs : VectorStore) : List Record := vs.records

/-- Squared euclidean distance between two vectors, the similarity measure
of the store (the spec leaves the concrete metric provider-defined). -/
def sqDist (v w : List Int) : Int :=
  ((v.zip w).map (fun p => (p.1 - p.2) * (p.1 - p.2))).sum

/-- Insert a record into a list sorted by ascending key. -/
def insertByKey (key : Record → Int) (r : Record) : List Record → List Record
  | [] => [r]
  | x :: xs => if key r ≤ key x then r :: x :: xs else x :: insertByKey key r xs

/-- Insertion sort of records by ascending key. -/
def sortByKey (key : Record → Int) : List Record → List Record
  | [] => []
  | x :: xs => insertByKey key x (sortByKey key xs)

/-- Modelled from the spec: query returns the k stored records nearest to
the query vector, nearest first; with fewer than k records it returns all
of them. -/
def VectorStore.query (vs : VectorStore) (v : List Int) (k : Nat) : List Record :=
  (sortByKey (fun r => sqDist v r.vector) vs.records).take k

/-- Modelled from the spec: CharacterTextSplitter with chunk_size S and
chunk_overlap O as a sliding window over the character list of a text,
with an explicit fuel argument for termination.  A text no longer than S
is a single chunk; otherwise the first S characters form a chunk and the
window advances by S - O characters, so consecutive chunks share O
characters.  The degenerate parameters O ≥ S also yield a single chunk. -/
def chunkTextFuel : Nat → Nat → Nat → List Char → List (List Char)
  | 0, _, _, s => [s]
  | fuel + 1, S, O, s =>
      if s.length ≤ S ∨ S ≤ O then [s]
      else s.take S :: chunkTextFuel fuel S O (s.drop (S - O))

/-- Modelled from the spec: chunk a text with chunk_size S and overlap O.
The window advances at least one character per chunk, so s.length fuel
always suffices. -/
def chunkText (S O : Nat) (s : List Char) : List (List Char) :=
  chunkTextFuel s.length S O s

/-- Concatenation of the tail chunks with the first O overlap characters of
each removed. -/
def dropOverlapJoin (O : Nat) : List (List Char) → List Char
  | [] => []
  | c :: cs => c.drop O ++ dropOverlapJoin O cs

/-- Concatenation of a chunk list with overlaps removed: the first chunk
whole, every later chunk without its first O characters. -/
def reconstructChunks (O : Nat) : List (List Char) → List Char
  | [] => []
  | c :: cs => c ++ dropOverlapJoin O cs

/-- Modelled from the spec: splitting one Document produces one chunk
Document per window, each inheriting the source metadata unchanged. -/
def chunkDocument (S O : Nat) (d : Document) : List Document :=
  (chunkText S O d.page_content.data).map
    (fun t => { page_content := String.mk t, doc_type := d.doc_type, source := d.source })

/-- Modelled from the spec: split_documents chunks every document in
order. -/
def split_documents (S O : Nat) : List Document → List Document
  | [] => []
  | d :: ds => chunkDocument S O d ++ split_documents S O ds

/-- Modelled from the spec: the external providers used by the pipeline.
embed is the embedding service, generate the language model, chatInit the
construction of the chat client; each may fail with a provider exception
message (network, auth, quota). -/
structure Provider where
  embed : String → Except String (List Int)
  generate : String → Except String String
  chatInit : Except String Unit

/-- A provider whose calls always succeed, with pure embedding and
generation functions. -/
def Provider.ofPure (ef : String → List Int) (gf : String → String) : Provider :=
  { embed := fun t => .ok (ef t)
    generate := fun p => .ok (gf p)
    chatInit := .ok () }

/-- Embed every chunk text in order, failing on the first provider
failure. -/
def embedAll (embed : String → Except String (List Int)) :
    List Document → Except String (List (List Int))
  | [] => .ok []
  | d :: ds =>
      match embed d.page_content with
      | .error e => .error e
      | .ok v =>
          match embedAll embed ds with
          | .error e => .error e
          | .ok vs => .ok (v :: vs)

/-- Modelled from the spec: the records Chroma.from_documents builds, one
per chunk in order, with sequential unique ids starting at i. -/
def recordsFrom (i : Nat) : List Document → List (List Int) → List Record
  | [], _ => []
  | _, [] => []
  | c :: cs, v :: vs =>
      { id := i, vector := v, text := c.page_content, doc_type := c.doc_type }
        :: recordsFrom (i + 1) cs vs

/-- Modelled from the spec: the vector store Chroma.from_documents creates
from chunks and their embeddings. -/
def chromaFromDocuments (chunks : List Document) (vecs : List (List Int)) : VectorStore :=
  { records := recordsFrom 0 chunks vecs }

/-- Modelled from the spec: the rebuild operation of the vector store:
any existing collection is deleted, then the store is rebuilt from the
chunks alone with a pure embedding function, so the result is independent
of the previous contents. -/
def VectorStore.rebuild (ef : String → List Int) (_prev : Option VectorStore)
    (chunks : List Document) : VectorStore :=
  chromaFromDocuments chunks (chunks.map (fun c => ef c.page_content))

/-- Modelled from the spec: the conversational retrieval chain: the bound
vector store, the retriever parameter k, and the conversation history held
by its ConversationBufferMemory as (question, answer) pairs. -/
structure ConversationalRetrievalChain where
  store : VectorStore
  k : Nat
  history : List (String × String)
deriving DecidableEq, Repr

/-- Modelled from the spec: the prompt assembled for the language model:
the retrieved chunk texts, the prior conversation history and the new
question concatenated into a single string. -/
def buildPrompt (retrieved : List Record) (history : List (String × String))
    (question : String) : String :=
  String.join (retrieved.map Record.text)
    ++ String.join (history.map (fun p => p.1 ++ p.2))
    ++ question

/-- Modelled from the spec: invoking the chain embeds the question, queries
the store for the top-k nearest chunks, sends the assembled prompt to the
language model, appends (question, answer) to the memory and returns the
answer with the updated chain; an embedding or generation failure raises
a provider exception and leaves the memory unchanged. -/
def ConversationalRetrievalChain.invoke (p : Provider)
    (c : ConversationalRetrievalChain) (question : String) :
    Except PipelineError (String × ConversationalRetrievalChain) :=
  match p.embed question with
  | .error e => .error (.providerError e)
  | .ok qv =>
      match p.generate (buildPrompt (c.store.query qv c.k) c.history question) with
      | .error e => .error (.providerError e)
      | .ok ans =>
          .ok (ans, { c with history := c.history ++ [(question, ans)] })

/-- The state of a KnowledgeWorker instance: the constructor arguments and
the two fields initialised to None. -/
structure KnowledgeWorker where
  knowledge_base_path : String
  use_openai : Bool
  vectorstore : Option VectorStore
  conversation_chain : Option ConversationalRetrievalChain
deriving DecidableEq, Repr

/-- KnowledgeWorker.load_documents: folders = glob(knowledge_base_path/*),
every immediate entry of the root, files included; if that list is empty
the method raises ValueError, otherwise every entry is loaded with
DirectoryLoader under the pattern for markdown files and tagged with the
entry name as doc_type. -/
def load_documents (kw : KnowledgeWorker) (fs : List FSEntry) :
    Except PipelineError (List Document) :=
  if fs.isEmpty then
    .error (.configurationError ("No folders found in " ++ kw.knowledge_base_path))
  else
    .ok (docsOfEntries fs)

/-- KnowledgeWorker.create_vectorstore: split the documents with
chunk_size 1000 and chunk_overlap 200, embed every chunk, delete any
existing collection and build a fresh Chroma store from the chunks,
assigning it to self.vectorstore; an embedding failure propagates
to the caller as a provider exception and leaves the field unset. -/
def create_vectorstore (p : Provider) (kw : KnowledgeWorker)
    (documents : List Document) : Except PipelineError KnowledgeWorker :=
  match embedAll p.embed (split_documents 1000 200 documents) with
  | .error e => .error (.providerError e)
  | .ok vecs =>
      .ok { kw with
              vectorstore := some (chromaFromDocuments (split_documents 1000 200 documents) vecs) }

/-- The default retriever parameter of setup_conversation_chain. -/
def default_k : Nat := 25

/-- KnowledgeWorker.setup_conversation_chain: with no vectorstore it prints
a message and returns without binding a chain; otherwise it constructs the
chat model (which may raise a provider exception), a fresh
ConversationBufferMemory and a retriever with search parameter k, and binds
the resulting chain to self.conversation_chain. -/
def setup_conversation_chain (p : Provider) (kw : KnowledgeWorker) (k : Nat) :
    Except PipelineError KnowledgeWorker :=
  match kw.vectorstore with
  | none => .ok kw
  | some vs =>
      match p.chatInit with
      | .error e => .error (.providerError e)
      | .ok _ =>
          .ok { kw with
                  conversation_chain := some { store := vs, k := k, history := [] } }

/-- KnowledgeWorker.ask_question: with no conversation chain bound it
returns a fixed instructional string; otherwise it invokes the chain and
returns the answer, catching every exception and returning its message
prefixed with "Error: ".  The state component pairs the returned string
with the instance after the call (the memory of the chain is updated on a
successful invocation). -/
def ask_question (p : Provider) (kw : KnowledgeWorker) (question : String) :
    String × KnowledgeWorker :=
  match kw.conversation_chain with
  | none =>
      ("Please set up the conversation chain first by calling setup_conversation_chain()", kw)
  | some chain =>
      match chain.invoke p question with
      | .ok pair => (pair.1, { kw with conversation_chain := some pair.2 })
      | .error e => ("Error: " ++ e.message, kw)

/-- KnowledgeWorker.run_full_setup: run load_documents, create_vectorstore
and setup_conversation_chain (with the default k) in sequence inside one
try block; any exception is caught and printed, and the method returns
with whatever fields were already assigned. -/
def run_full_setup (p : Provider) (fs : List FSEntry) (kw : KnowledgeWorker) :
    KnowledgeWorker :=
  match load_documents kw fs with
  | .error _ => kw
  | .ok docs =>
      match create_vectorstore p kw docs with
      | .error _ => kw
      | .ok kw1 =>
          match setup_conversation_chain p kw1 default_k with
          | .error _ => kw1
          | .ok kw2 => kw2

/-- A freshly constructed KnowledgeWorker: both fields are None. -/
def kw0 : KnowledgeWorker :=
  { knowledge_base_path := "knowledge-base"
    use_openai := true
    vectorstore := none
    conversation_chain := none }

/-- A small concrete knowledge base: two category subdirectories, one of
them also holding a file that is not markdown. -/
def fsEx : List FSEntry :=
  [FSEntry.dir "products" [("p1.md", "alpha product"), ("notes.txt", "ignore me")],
   FSEntry.dir "employees" [("e1.md", "bob works here")]]

/-- The documents loaded from the concrete knowledge base. -/
def docsEx : List Document := docsOfEntries fsEx

/-- The chunks of the concrete documents under the configured splitter
parameters. -/
def chunksEx : List Document := split_documents 1000 200 docsEx

/-- A provider whose embedding and generation calls fail with a quota
message, as an exhausted account would. -/
def provFail : Provider :=
  { embed := fun _ => .error "quota exceeded"
    generate := fun _ => .error "quota exceeded"
    chatInit := .ok () }

/-- A provider that always succeeds, with constant embeddings and a fixed
answer. -/
def provPure : Provider := Provider.ofPure (fun _ => [0]) (fun _ => "An answer")

/-- A successful provider whose language model happens to produce exactly
the text the error handler of ask_question would produce. -/
def provAmb : Provider := Provider.ofPure (fun _ => [0]) (fun _ => "Error: quota exceeded")

/-- A provider whose chat-model construction fails, as it does when the
API key is missing; embedding succeeds. -/
def pChatFail : Provider :=
  { embed := fun _ => .ok [0]
    generate := fun _ => .ok "An answer"
    chatInit := .error "The api_key client option must be set" }

/-- A concrete non-empty vector store. -/
def vsEx : VectorStore :=
  { records := [{ id := 0, vector := [0], text := "alpha product", doc_type := "products" }] }

/-- A concrete chain bound to the non-empty store with the default k and
empty history. -/
def chainEx : ConversationalRetrievalChain :=
  { store := vsEx, k := 25, history := [] }

/-- A KnowledgeWorker in the Ready state. -/
def kwReady : KnowledgeWorker :=
  { knowledge_base_path := "knowledge-base"
    use_openai := true
    vectorstore := some vsEx
    conversation_chain := some chainEx }

/-- The state run_full_setup reaches when loading and embedding succeed but
the chat-model construction fails: the vector store is assigned, the
conversation chain is not. -/
def kwMid : KnowledgeWorker :=
  { kw0 with
      vectorstore := some (chromaFromDocuments chunksEx (chunksEx.map (fun _ => [0]))) }

/-- A concrete document shorter than the chunk size. -/
def docP : Document :=
  { page_content := "alpha product", doc_type := "products", source := "p1.md" }

/-- A concrete eight-character document used to exercise the chunker with
chunk_size five and overlap two. -/
def doc8 : Document :=
  { page_content := "abcdefgh", doc_type := "products", source := "p8.md" }

lemma string_mk_data (s : String) : String.mk s.data = s := rfl

lemma chunkTextFuel_single (fuel S O : Nat) (s : List Char)
    (h : s.length ≤ S ∨ S ≤ O) : chunkTextFuel fuel S O s = [s] := by
  cases fuel with
  | zero => rfl
  | succ n => simp only [chunkTextFuel]; rw [if_pos h]

lemma chunkText_single (S O : Nat) (s : List Char) (h : s.length ≤ S) :
    chunkText S O s = [s] :=
  chunkTextFuel_single s.length S O s (Or.inl h)

lemma dropOverlapJoin_chunkTextFuel (S O : Nat) (hO : O < S) :
    ∀ (fuel : Nat) (s : List Char), s.length ≤ fuel →
      dropOverlapJoin O (chunkTextFuel fuel S O s) = s.drop O := by
  intro fuel
  induction fuel with
  | zero =>
      intro s hs
      have hnil : s = [] := List.eq_nil_of_length_eq_zero (Nat.le_zero.mp hs)
      subst hnil
      simp [chunkTextFuel, dropOverlapJoin]
  | succ n ih =>
      intro s hs
      by_cases hc : s.length ≤ S ∨ S ≤ O
      · rw [chunkTextFuel_single _ _ _ _ hc]
        simp [dropOverlapJoin]
      · push_neg at hc
        obtain ⟨h1, _⟩ := hc
        simp only [chunkTextFuel]
        rw [if_neg (by omega : ¬(s.length ≤ S ∨ S ≤ O))]
        simp only [dropOverlapJoin]
        rw [ih (s.drop (S - O)) (by simp only [List.length_drop]; omega)]
        rw [List.drop_drop]
        have hOS : S - O + O = S := by omega
        rw [hOS, List.drop_take]
        have h3 : s.drop S = (s.drop O).drop (S - O) := by
          rw [List.drop_drop]
          congr 1
          omega
        rw [h3, List.take_append_drop]

lemma reconstruct_chunkText (S O : Nat) (hO : O < S) (s : List Char) :
    reconstructChunks O (chunkText S O s) = s := by
  unfold chunkText
  by_cases h : s.length ≤ S
  · rw [chunkTextFuel_single _ _ _ _ (Or.inl h)]
    simp [reconstructChunks, dropOverlapJoin]
  · obtain ⟨n, hn⟩ : ∃ n, s.length = n + 1 := ⟨s.length - 1, by omega⟩
    rw [hn]
    simp only [chunkTextFuel]
    rw [if_neg (by omega : ¬(s.length ≤ S ∨ S ≤ O))]
    simp only [reconstructChunks]
    rw [dropOverlapJoin_chunkTextFuel S O hO n (s.drop (S - O))
          (by simp only [List.length_drop]; omega)]
    rw [List.drop_drop]
    have hOS : S - O + O = S := by omega
    rw [hOS, List.take_append_drop]

lemma chunkDocument_texts (S O : Nat) (d : Document) :
    (chunkDocument S O d).map (fun c => c.page_content.data)
      = chunkText S O d.page_content.data := by
  unfold chunkDocument
  rw [List.map_map]
  have hco : ((fun c : Document => c.page_content.data)
      ∘ (fun t => ({ page_content := String.mk t, doc_type := d.doc_type,
                      source := d.source } : Document))) = id := by
    funext t
    rfl
  rw [hco, List.map_id]

lemma recordsFrom_forall2 :
    ∀ (i : Nat) (cs : List Document) (vs : List (List Int)), cs.length = vs.length →
      List.Forall₂ (fun (r : Record) (c : Document) =>
          r.doc_type = c.doc_type ∧ r.text = c.page_content)
        (recordsFrom i cs vs) cs := by
  intro i cs
  induction cs generalizing i with
  | nil => intro vs _; simp [recordsFrom]
  | cons c cs ih =>
      intro vs hlen
      cases vs with
      | nil => simp at hlen
      | cons v vs =>
          simp only [recordsFrom]
          exact List.Forall₂.cons ⟨rfl, rfl⟩ (ih (i + 1) vs (by simpa using hlen))

lemma recordsFrom_map_id :
    ∀ (i : Nat) (cs : List Document) (vs : List (List Int)),
      (recordsFrom i cs vs).map Record.id = List.range' i (recordsFrom i cs vs).length := by
  intro i cs
  induction cs generalizing i with
  | nil => intro vs; simp [recordsFrom]
  | cons c cs ih =>
      intro vs
      cases vs with
      | nil => simp [recordsFrom]
      | cons v vs =>
          simp only [recordsFrom, List.map_cons, List.length_cons, List.range'_succ]
          rw [ih (i + 1) vs]

lemma length_insertByKey (key : Record → Int) (r : Record) :
    ∀ l : List Record, (insertByKey key r l).length = l.length + 1 := by
  intro l
  induction l with
  | nil => rfl
  | cons x xs ih =>
      simp only [insertByKey]
      by_cases h : key r ≤ key x
      · rw [if_pos h]; rfl
      · rw [if_neg h]; simp [ih]

lemma length_sortByKey (key : Record → Int) :
    ∀ l : List Record, (sortByKey key l).length = l.length := by
  intro l
  induction l with
  | nil => rfl
  | cons x xs ih =>
      simp only [sortByKey]
      rw [length_insertByKey, ih]
      rfl

lemma length_query (vs : VectorStore) (v : List Int) (k : Nat) :
    (vs.query v k).length = min k vs.records.length := by
  unfold VectorStore.query
  rw [List.length_take, length_sortByKey]

lemma query_ne_nil (vs : VectorStore) (v : List Int) (k : Nat)
    (hk : 1 ≤ k) (hne : vs.records ≠ []) : vs.query v k ≠ [] := by
  have hlen : 0 < (vs.query v k).length := by
    rw [length_query]
    have : 0 < vs.records.length := List.length_pos.mpr hne
    omega
  exact List.length_pos.mp hlen

lemma mem_entryDocs_dir (name : String) (files : List (String × String)) (d : Document)
    (hm : d ∈ entryDocs (.dir name files)) :
    hasMdExt d.source = true ∧ d.doc_type = name ∧ (d.source, d.page_content) ∈ files := by
  unfold entryDocs at hm
  obtain ⟨p, hp, hpd⟩ := List.mem_map.mp hm
  obtain ⟨hpf, hmd⟩ := List.mem_filter.mp hp
  subst hpd
  exact ⟨hmd, rfl, hpf⟩

lemma mem_docsOfEntries (fs : List FSEntry) (d : Document)
    (hm : d ∈ docsOfEntries fs) : ∃ e, e ∈ fs ∧ d ∈ entryDocs e := by
  induction fs with
  | nil => simp [docsOfEntries] at hm
  | cons e rest ih =>
      simp only [docsOfEntries] at hm
      rcases List.mem_append.mp hm with h | h
      · exact ⟨e, List.mem_cons_self _ _, h⟩
      · obtain ⟨e2, he2, hd2⟩ := ih h
        exact ⟨e2, List.mem_cons_of_mem _ he2, hd2⟩

lemma mem_split_documents (S O : Nat) (docs : List Document) (c : Document)
    (hm : c ∈ split_documents S O docs) :
    ∃ d, d ∈ docs ∧ c.doc_type = d.doc_type ∧ c.source = d.source := by
  induction docs with
  | nil => simp [split_documents] at hm
  | cons d ds ih =>
      simp only [split_documents] at hm
      rcases List.mem_append.mp hm with h | h
      · unfold chunkDocument at h
        obtain ⟨t, _, htc⟩ := List.mem_map.mp h
        subst htc
        exact ⟨d, List.mem_cons_self _ _, rfl, rfl⟩
      · obtain ⟨d2, hd2, hc2⟩ := ih h
        exact ⟨d2, List.mem_cons_of_mem _ hd2, hc2⟩

lemma create_vectorstore_ok (p : Provider) (kw kw1 : KnowledgeWorker)
    (docs : List Document)
    (h : create_vectorstore p kw docs = .ok kw1) :
    ∃ vs, kw1 = { kw with vectorstore := some vs } := by
  unfold create_vectorstore at h
  cases hemb : embedAll p.embed (split_documents 1000 200 docs) with
  | error e => rw [hemb] at h; exact absurd h (by simp)
  | ok vecs =>
      rw [hemb] at h
      simp only [Except.ok.injEq] at h
      exact ⟨_, h.symm⟩

/-- C6: for every Document and parameters chunk_size S and overlap O with
O < S, the chunks produced from the document reconstruct its text exactly
once the O overlap characters are removed from every chunk after the
first; and a document no longer than the chunk size yields exactly one
chunk equal to the whole document. -/
theorem chunking_reconstructs_document (S O : Nat) (hO : O < S) (d : Document) :
    reconstructChunks O ((chunkDocument S O d).map (fun c => c.page_content.data))
        = d.page_content.data
  ∧ (d.page_content.data.length ≤ S → chunkDocument S O d = [d]) := by
  constructor
  · rw [chunkDocument_texts]
    exact reconstruct_chunkText S O hO d.page_content.data
  · intro h
    unfold chunkDocument
    rw [chunkText_single S O _ h]
    rfl

/-- Witness for C6 at chunk_size five and overlap two: the eight-character
document is cut into overlapping chunks that reconstruct it, and the
thirteen-character document is a single chunk under the configured
parameters of the source (chunk_size 1000). -/
theorem chunking_reconstructs_document_witness :
    2 < 5
  ∧ reconstructChunks 2 ((chunkDocument 5 2 doc8).map (fun c => c.page_content.data))
        = doc8.page_content.data
  ∧ docP.page_content.data.length ≤ 1000
  ∧ chunkDocument 1000 200 docP = [docP] := by
  refine ⟨by decide, (chunking_reconstructs_document 5 2 (by decide) doc8).1, by decide, ?_⟩
  exact (chunking_reconstructs_document 1000 200 (by decide) docP).2 (by decide)

/-- C5: after rebuilding the store from a list of chunks the store holds
exactly one record per chunk in order (so export_all returns len(chunks)
records and every record carries the doc_type of its source chunk), the
result does not depend on the previously stored records, and the assigned
ids are distinct. -/
theorem rebuild_one_record_per_chunk (ef : String → List Int)
    (prev : Option VectorStore) (chunks : List Document) :
    (VectorStore.rebuild ef prev chunks).export_all.length = chunks.length
  ∧ List.Forall₂ (fun (r : Record) (c : Document) =>
        r.doc_type = c.doc_type ∧ r.text = c.page_content)
      (VectorStore.rebuild ef prev chunks).export_all chunks
  ∧ (∀ prev2, VectorStore.rebuild ef prev2 chunks = VectorStore.rebuild ef prev chunks)
  ∧ ((VectorStore.rebuild ef prev chunks).export_all.map Record.id).Nodup := by
  have hlen : chunks.length = (chunks.map (fun c => ef c.page_content)).length := by
    rw [List.length_map]
  have hf2 := recordsFrom_forall2 0 chunks (chunks.map (fun c => ef c.page_content)) hlen
  refine ⟨hf2.length_eq, hf2, fun prev2 => rfl, ?_⟩
  rw [VectorStore.rebuild, VectorStore.export_all, chromaFromDocuments, recordsFrom_map_id]
  exact List.nodup_range' _ _

/-- C7: every document found beneath a subdirectory of the root carries
that subdirectory name as its doc_type metadata, and every chunk produced
by the splitter carries the doc_type and source of some source document
unchanged. -/
theorem category_metadata_inherited :
    (∀ (name : String) (files : List (String × String)) (d : Document),
        d ∈ entryDocs (.dir name files) → d.doc_type = name)
  ∧ (∀ (S O : Nat) (docs : List Document) (c : Document),
        c ∈ split_documents S O docs →
          ∃ d, d ∈ docs ∧ c.doc_type = d.doc_type ∧ c.source = d.source) := by
  constructor
  · intro name files d hm
    exact (mem_entryDocs_dir name files d hm).2.1
  · intro S O docs c hm
    exact mem_split_documents S O docs c hm

/-- Witness for C7: the concrete document loaded from the products
directory carries doc_type "products", and its single chunk under the
configured parameters inherits the same metadata. -/
theorem category_metadata_inherited_witness :
    docP ∈ entryDocs (.dir "products" [("p1.md", "alpha product"), ("notes.txt", "ignore me")])
  ∧ docP.doc_type = "products"
  ∧ docP ∈ split_documents 1000 200 [docP]
  ∧ ∃ d, d ∈ [docP] ∧ docP.doc_type = d.doc_type ∧ docP.source = d.source := by
  refine ⟨by decide, ?_, by decide, ?_⟩
  · exact category_metadata_inherited.1 "products"
      [("p1.md", "alpha product"), ("notes.txt", "ignore me")] docP (by decide)
  · exact category_metadata_inherited.2 1000 200 [docP] docP (by decide)

/-- C10: on a non-empty root the loader succeeds and returns exactly the
documents found beneath the immediate entries; every loaded document comes
from a file whose name ends in ".md" found beneath a subdirectory entry,
with that entry name as doc_type; a plain-file entry of the root is
treated as a category with no documents beneath it, and files with other
extensions are ignored. -/
theorem loader_md_only (kw : KnowledgeWorker) (fs : List FSEntry) (h : fs ≠ []) :
    load_documents kw fs = .ok (docsOfEntries fs)
  ∧ (∀ d, d ∈ docsOfEntries fs →
        hasMdExt d.source = true
        ∧ ∃ name files, FSEntry.dir name files ∈ fs
            ∧ d.doc_type = name ∧ (d.source, d.page_content) ∈ files)
  ∧ (∀ (n c : String), entryDocs (.file n c) = []) := by
  refine ⟨?_, ?_, fun n c => rfl⟩
  · unfold load_documents
    rw [if_neg (by simpa [List.isEmpty_iff] using h)]
  · intro d hm
    obtain ⟨e, he, hde⟩ := mem_docsOfEntries fs d hm
    cases e with
    | file n c => simp [entryDocs] at hde
    | dir name files =>
        obtain ⟨hmd, htype, hfile⟩ := mem_entryDocs_dir name files d hde
        exact ⟨hmd, name, files, he, htype, hfile⟩

/-- Witness for C10 on the concrete knowledge base: the root is non-empty,
loading succeeds with the markdown documents only, and the non-markdown
file is ignored. -/
theorem loader_md_only_witness :
    fsEx ≠ []
  ∧ load_documents kw0 fsEx = .ok (docsOfEntries fsEx)
  ∧ entryDocs (.file "stray.txt" "x") = [] := by
  refine ⟨by decide, ?_, ?_⟩
  · exact (loader_md_only kw0 fsEx (by decide)).1
  · exact (loader_md_only kw0 fsEx (by decide)).2.2 "stray.txt" "x"

/-- C1 counterexample: calling ask_question on a freshly constructed
instance (no conversation chain bound) does not fail; it silently returns
the fixed instructional string, the very behaviour the claim rules out. -/
theorem ask_uninitialized_counterexample :
    ask_question provFail kw0 "What is X?"
      = ("Please set up the conversation chain first by calling setup_conversation_chain()",
         kw0) := rfl

/-- C1 amended: for every instance with no conversation chain bound,
ask_question returns the fixed instructional string and leaves the
instance unchanged, instead of raising a NotReadyError. -/
theorem ask_uninitialized_returns_default (p : Provider) (kw : KnowledgeWorker)
    (q : String) (h : kw.conversation_chain = none) :
    ask_question p kw q
      = ("Please set up the conversation chain first by calling setup_conversation_chain()",
         kw) := by
  simp [ask_question, h]

/-- Witness for the amended C1 at a concrete uninitialized instance. -/
theorem ask_uninitialized_returns_default_witness :
    kw0.conversation_chain = none
  ∧ ask_question provPure kw0 "What is X?"
      = ("Please set up the conversation chain first by calling setup_conversation_chain()",
         kw0) :=
  ⟨rfl, ask_uninitialized_returns_default provPure kw0 "What is X?" rfl⟩

/-- C2 counterexample: when the embedding provider fails with a quota
error inside the chain, ask_question returns the plain string built from
the exception message instead of a distinct error signal; a successful
call whose language model happens to produce that very text returns an
identical string, so the two outcomes are indistinguishable to the
caller. -/
theorem provider_error_string_counterexample :
    (ask_question provFail kwReady "What is X?").1 = "Error: quota exceeded"
  ∧ (ask_question provAmb kwReady "What is X?").1 = "Error: quota exceeded" :=
  ⟨rfl, rfl⟩

/-- C2 amended: setup operations do surface provider failures to their
caller (create_vectorstore turns an embedding failure into an error
result), but ask_question catches every failure of the chain invocation
and converts it into the answer string "Error: " followed by the
exception message. -/
theorem provider_error_surfacing (p : Provider) (kw : KnowledgeWorker)
    (q : String) (docs : List Document) :
    (∀ e, embedAll p.embed (split_documents 1000 200 docs) = .error e →
        create_vectorstore p kw docs = .error (.providerError e))
  ∧ (∀ chain e, kw.conversation_chain = some chain →
        chain.invoke p q = .error e →
        (ask_question p kw q).1 = "Error: " ++ e.message) := by
  constructor
  · intro e he
    unfold create_vectorstore
    rw [he]
  · intro chain e hc he
    simp [ask_question, hc, he]

/-- Witness for the amended C2: a quota failure in the embedding provider
is surfaced by create_vectorstore as a provider error and stringified by
ask_question. -/
theorem provider_error_surfacing_witness :
    embedAll provFail.embed (split_documents 1000 200 docsEx) = .error "quota exceeded"
  ∧ create_vectorstore provFail kw0 docsEx = .error (.providerError "quota exceeded")
  ∧ kwReady.conversation_chain = some chainEx
  ∧ chainEx.invoke provFail "What is X?" = .error (.providerError "quota exceeded")
  ∧ (ask_question provFail kwReady "What is X?").1
      = "Error: " ++ (PipelineError.providerError "quota exceeded").message := by
  refine ⟨rfl, ?_, rfl, rfl, ?_⟩
  · exact (provider_error_surfacing provFail kw0 "What is X?" docsEx).1
      "quota exceeded" rfl
  · exact (provider_error_surfacing provFail kwReady "What is X?" docsEx).2
      chainEx (.providerError "quota exceeded") rfl rfl

/-- C3 counterexample: a root that contains a plain file and no
subdirectory is not rejected: load_documents succeeds with zero documents,
and run_full_setup then creates an (empty) vector store, so a vector store
is created by that run after all. -/
theorem flat_root_counterexample :
    load_documents kw0 [FSEntry.file "notes.md" "hello"] = .ok []
  ∧ (run_full_setup provPure [FSEntry.file "notes.md" "hello"] kw0).vectorstore
      = some (chromaFromDocuments [] []) :=
  ⟨rfl, rfl⟩

/-- C3 amended: only a root with no entries at all makes load_documents
fail, with the configuration error of the source (the ValueError naming
the path); run_full_setup catches that failure and returns the instance
unchanged, so no vector store is created by such a run.  A root holding
only plain files is treated as non-empty and does not fail. -/
theorem empty_root_configuration_error (p : Provider) (kw : KnowledgeWorker) :
    load_documents kw []
      = .error (.configurationError ("No folders found in " ++ kw.knowledge_base_path))
  ∧ run_full_setup p [] kw = kw :=
  ⟨rfl, rfl⟩

/-- C8: ask_question never raises: with no chain bound it returns the
fixed instructional string; when the chain invocation raises, the
exception is caught and returned as a string that begins with "Error: ";
when it succeeds the answer is returned and the updated chain stored. -/
theorem ask_question_total_behavior (p : Provider) (kw : KnowledgeWorker) (q : String) :
    (kw.conversation_chain = none →
        ask_question p kw q
          = ("Please set up the conversation chain first by calling setup_conversation_chain()",
             kw))
  ∧ (∀ chain e, kw.conversation_chain = some chain →
        chain.invoke p q = .error e →
          ask_question p kw q = ("Error: " ++ e.message, kw)
          ∧ ∃ suffix, (ask_question p kw q).1 = "Error: " ++ suffix)
  ∧ (∀ chain pair, kw.conversation_chain = some chain →
        chain.invoke p q = .ok pair →
          ask_question p kw q = (pair.1, { kw with conversation_chain := some pair.2 })) := by
  refine ⟨?_, ?_, ?_⟩
  · intro h
    simp [ask_question, h]
  · intro chain e hc he
    constructor
    · simp [ask_question, hc, he]
    · exact ⟨e.message, by simp [ask_question, hc, he]⟩
  · intro chain pair hc hp
    simp [ask_question, hc, hp]

/-- Witness for C8 covering the unbound case and the caught exception
case at concrete inputs. -/
theorem ask_question_total_behavior_witness :
    kw0.conversation_chain = none
  ∧ ask_question provFail kw0 "hi"
      = ("Please set up the conversation chain first by calling setup_conversation_chain()",
         kw0)
  ∧ chainEx.invoke provFail "hi" = .error (.providerError "quota exceeded")
  ∧ ask_question provFail kwReady "hi"
      = ("Error: " ++ (PipelineError.providerError "quota exceeded").message, kwReady) := by
  refine ⟨rfl, ?_, rfl, ?_⟩
  · exact (ask_question_total_behavior provFail kw0 "hi").1 rfl
  · exact ((ask_question_total_behavior provFail kwReady "hi").2.1 chainEx
      (.providerError "quota exceeded") rfl rfl).1

/-- C9: run_full_setup catches every failure of the three setup steps and
returns normally: a loading failure returns the instance unchanged, an
embedding failure returns it unchanged, and a failure of the chat-model
construction after the vector store was assigned returns the instance
with the vector store set and the conversation chain still unset. -/
theorem run_full_setup_catches_all (p : Provider) (fs : List FSEntry)
    (kw : KnowledgeWorker) :
    (∀ e, load_documents kw fs = .error e → run_full_setup p fs kw = kw)
  ∧ (∀ docs e, load_documents kw fs = .ok docs →
        create_vectorstore p kw docs = .error e → run_full_setup p fs kw = kw)
  ∧ (∀ docs kw1 e, load_documents kw fs = .ok docs →
        create_vectorstore p kw docs = .ok kw1 →
        setup_conversation_chain p kw1 default_k = .error e →
          run_full_setup p fs kw = kw1
          ∧ kw1.vectorstore.isSome = true
          ∧ kw1.conversation_chain = kw.conversation_chain) := by
  refine ⟨?_, ?_, ?_⟩
  · intro e hl
    simp [run_full_setup, hl]
  · intro docs e hl hcv
    simp [run_full_setup, hl, hcv]
  · intro docs kw1 e hl hcv hs
    obtain ⟨vs, hvs⟩ := create_vectorstore_ok p kw kw1 docs hcv
    refine ⟨by simp [run_full_setup, hl, hcv, hs], ?_, ?_⟩
    · simp [hvs]
    · simp [hvs]

/-- Witness for C9: a concrete run in which loading and embedding succeed
but the chat-model construction fails leaves the vector store assigned
and the conversation chain unset. -/
theorem run_full_setup_catches_all_witness :
    load_documents kw0 fsEx = .ok docsEx
  ∧ create_vectorstore pChatFail kw0 docsEx = .ok kwMid
  ∧ setup_conversation_chain pChatFail kwMid default_k
      = .error (.providerError "The api_key client option must be set")
  ∧ run_full_setup pChatFail fsEx kw0 = kwMid
  ∧ kwMid.vectorstore.isSome = true
  ∧ kwMid.conversation_chain = none := by
  refine ⟨rfl, rfl, rfl, ?_⟩
  have h := (run_full_setup_catches_all pChatFail fsEx kw0).2.2 docsEx kwMid
    (.providerError "The api_key client option must be set") rfl rfl rfl
  exact ⟨h.1, h.2.1, h.2.2⟩

/-- C4: in the Ready state, ask_question embeds the question, retrieves
the top-k nearest chunks from the bound store (with retrieval context
non-empty when the store is non-empty), sends the prompt built from the
retrieved texts, the prior history and the question to the language
model, returns that answer (non-empty when the model produces non-empty
text), and appends exactly one (question, answer) pair to the
conversation history; setup_conversation_chain with the default k binds
a chain with k = 25 and empty history. -/
theorem ask_question_ready (ef : String → List Int) (gf : String → String)
    (kw : KnowledgeWorker) (chain : ConversationalRetrievalChain) (q : String)
    (hchain : kw.conversation_chain = some chain)
    (hk : 1 ≤ chain.k)
    (hne : chain.store.records ≠ [])
    (hg : ∀ s, gf s ≠ "") :
    (ask_question (Provider.ofPure ef gf) kw q).1
        = gf (buildPrompt (chain.store.query (ef q) chain.k) chain.history q)
  ∧ (ask_question (Provider.ofPure ef gf) kw q).1 ≠ ""
  ∧ chain.store.query (ef q) chain.k ≠ []
  ∧ (ask_question (Provider.ofPure ef gf) kw q).2.conversation_chain
        = some { chain with
                   history := chain.history
                     ++ [(q, (ask_question (Provider.ofPure ef gf) kw q).1)] }
  ∧ (chain.history ++ [(q, (ask_question (Provider.ofPure ef gf) kw q).1)]).length
        = chain.history.length + 1
  ∧ (∀ (kw2 : KnowledgeWorker) (vs2 : VectorStore), kw2.vectorstore = some vs2 →
        setup_conversation_chain (Provider.ofPure ef gf) kw2 default_k
          = .ok { kw2 with
                    conversation_chain := some { store := vs2, k := 25, history := [] } }) := by
  have heval : ask_question (Provider.ofPure ef gf) kw q
      = (gf (buildPrompt (chain.store.query (ef q) chain.k) chain.history q),
         { kw with
             conversation_chain := some { chain with
               history := chain.history
                 ++ [(q, gf (buildPrompt (chain.store.query (ef q) chain.k)
                        chain.history q))] } }) := by
    simp [ask_question, hchain, ConversationalRetrievalChain.invoke, Provider.ofPure]
  rw [heval]
  refine ⟨rfl, hg _, query_ne_nil chain.store (ef q) chain.k hk hne, rfl, ?_, ?_⟩
  · simp
  · intro kw2 vs2 h2
    simp [setup_conversation_chain, h2, Provider.ofPure, default_k]

/-- Witness for C4: a concrete Ready instance over a one-record store with
a constant embedder and a constant non-empty answer. -/
theorem ask_question_ready_witness :
    kwReady.conversation_chain = some chainEx
  ∧ 1 ≤ chainEx.k
  ∧ chainEx.store.records ≠ []
  ∧ (ask_question (Provider.ofPure (fun _ => [0]) (fun _ => "An answer")) kwReady
        "What is X?").1 ≠ ""
  ∧ chainEx.store.query ((fun _ => ([0] : List Int)) "What is X?") chainEx.k ≠ [] := by
  have h := ask_question_ready (fun _ => [0]) (fun _ => "An answer") kwReady chainEx
    "What is X?" rfl (by decide) (by decide)
    (fun _ => (by decide : ("An answer" : String) ≠ ""))
  exact ⟨rfl, by decide, by decide, h.2.1, h.2.2.1⟩
